import Mathlib

/-!
Verification of the Tocin conformance test harness
(`test_interpreter_completion.py`): a shallow embedding of the harness's
data model and its five test cases, with theorems settling the spec's
claims about suite orchestration, expectation evaluation, timeouts,
filesystem cleanup and exit-status derivation.

The target executable is a black box; it is modelled by an environment
`Env` giving, for every command vector and timeout bound, the outcome of
the corresponding process invocation (a completed-process record, a
timeout, or a failure to start, the latter covering exceptions such as
`FileNotFoundError`).  The filesystem is modelled as a map from paths to
optional file contents.
-/

namespace Tocin

/-- Result record of a completed process invocation, mirroring Python's
`subprocess.CompletedProcess` as the harness consumes it: `returncode`,
captured `stdout` and `stderr` as text. -/
structure CompletedProcess where
  returncode : Int
  stdout : String
  stderr : String
deriving DecidableEq, Repr

/-- Outcome of attempting one process invocation: the process ran to
completion, the wait timed out (`subprocess.TimeoutExpired`), or the
process could not be started at all (any other exception, e.g.
`FileNotFoundError` for a missing binary). -/
inductive RunOutcome where
  | completed : CompletedProcess → RunOutcome
  | timedOut : RunOutcome
  | failedToStart : RunOutcome
deriving DecidableEq, Repr

/-- Returns `true` exactly when the invocation ran to completion (with any exit
code). -/
def RunOutcome.isCompleted : RunOutcome → Bool
  | .completed _ => true
  | .timedOut => false
  | .failedToStart => false

/-- Exceptions the embedded harness code can observe from
`subprocess.run`: `TimeoutExpired`, or any other exception. -/
inductive PyExc where
  | timeoutExpired : PyExc
  | otherExc : PyExc
deriving DecidableEq, Repr

/-- The black-box target and operating system: `run cmd timeout` is the
outcome of invoking command vector `cmd` with the given optional timeout
bound (`none` = no bound, as when Python's `subprocess.run` is called
without a `timeout` argument); `access_X_OK p` models
`os.access(p, os.X_OK)`. -/
structure Env where
  run : List String → Option Nat → RunOutcome
  access_X_OK : String → Bool

/-- The filesystem: a map from path to the contents of the file there, if
any. -/
def FS : Type := String → Option String

/-- Models `os.path.exists`. -/
def FS.path_exists (fs : FS) (p : String) : Bool := (fs p).isSome

/-- Models `open(p, "w")` followed by writing `contents`: unconditionally
replaces whatever was at `p`. -/
def FS.write (fs : FS) (p : String) (contents : String) : FS :=
  fun q => if q = p then some contents else fs q

/-- Models `os.remove p`. -/
def FS.remove (fs : FS) (p : String) : FS :=
  fun q => if q = p then none else fs q

/-- Record of one process invocation issued by the harness: the command
vector and the timeout bound passed to `subprocess.run` (`none` when the
call passes no timeout). -/
structure Inv where
  cmd : List String
  timeout : Option Nat
deriving DecidableEq, Repr

/-- Models `subprocess.run cmd` with the given timeout bound, as the harness
sees it: a completed-process record, or a raised exception. -/
def subprocess_run (env : Env) (cmd : List String) (timeout : Option Nat) :
    Except PyExc CompletedProcess :=
  match env.run cmd timeout with
  | .completed r => .ok r
  | .timedOut => .error .timeoutExpired
  | .failedToStart => .error .otherExc

/-- Predicate `charsLead p s` is `true` iff the character list `p` is an initial
segment of `s`. -/
def charsLead : List Char → List Char → Bool
  | [], _ => true
  | _ :: _, [] => false
  | p :: ps, c :: cs => p == c && charsLead ps cs

/-- Predicate `charsHas pat s` is `true` iff `pat` occurs as a contiguous segment
of `s`. -/
def charsHas (pat : List Char) : List Char → Bool
  | [] => pat.isEmpty
  | c :: cs => charsLead pat (c :: cs) || charsHas pat cs

/-- Models Python's `pat in s` on strings: contiguous-substring containment. -/
def strContains (s pat : String) : Bool := charsHas pat.data s.data

/-- The configured target path, `"./build/tocin"`. -/
def binary_path : String := "./build/tocin"

/-- Function `run_command(cmd, expected_returncode)`: runs the command with **no**
timeout bound, returns `true` iff the actual return code equals the
expected one; an exception from `subprocess.run` propagates to the
caller.  Second component: the invocation issued. -/
def run_command (env : Env) (cmd : List String) (expected_returncode : Int) :
    Except PyExc Bool × List Inv :=
  (match subprocess_run env cmd none with
   | .error e => .error e
   | .ok result => .ok (result.returncode == expected_returncode),
   [⟨cmd, none⟩])

/-- Test `test_binary_exists`: checks `os.path.exists` and `os.access(·, X_OK)`
on the configured path, spawning no process.  Second component: the
final status line the test prints. -/
def test_binary_exists (env : Env) (fs : FS) : Bool × String :=
  if !(FS.path_exists fs binary_path) then
    (false, "FAILED: Binary not found at " ++ binary_path)
  else if !(env.access_X_OK binary_path) then
    (false, "FAILED: Binary at " ++ binary_path ++ " is not executable")
  else
    (true, "PASSED: Binary exists and is executable")

/-- Test `test_help_output`: `run_command(["./build/tocin", "--help"])` with
expected return code 0. -/
def test_help_output (env : Env) : Except PyExc Bool × List Inv :=
  run_command env [binary_path, "--help"] 0

/-- The eleven feature strings `test_version_features` requires in the
help output, in source order. -/
def required_features : List String :=
  ["Option/Result types", "Traits", "Ownership", "Null safety",
   "Concurrency", "async/await", "Macro system", "FFI support",
   "JavaScript", "Python", "C++"]

/-- The `all_found` loop of `test_version_features`: starts at `True`,
clears the accumulator whenever a required feature is not a substring of
the captured stdout. -/
def featuresFound (stdout : String) : Bool :=
  required_features.foldl
    (fun all_found feature =>
      if strContains stdout feature then all_found else false) true

/-- Test `test_version_features`: invokes `./build/tocin --help` with no
timeout, then requires every feature string to occur (case-sensitively)
in the captured stdout; an exception from `subprocess.run` propagates. -/
def test_version_features (env : Env) : Except PyExc Bool × List Inv :=
  (match subprocess_run env [binary_path, "--help"] none with
   | .error e => .error e
   | .ok result => .ok (featuresFound result.stdout),
   [⟨[binary_path, "--help"], none⟩])

/-- The ten flags `test_compilation_flags` probes, in source order. -/
def flags_to_test : List (List String) :=
  [["--dump-ir"], ["-O0"], ["-O1"], ["-O2"], ["-O3"],
   ["--no-ffi"], ["--no-concurrency"], ["--enable-javascript"],
   ["--enable-python"], ["--enable-cpp"]]

/-- Models Python's `str.lower()` as the harness uses it (the rejection
markers are ASCII): lowercases every character. -/
def strLower (s : String) : String := ⟨s.data.map Char.toLower⟩

/-- The rejection-marker test of `test_compilation_flags`: `true` iff the
lowercased stderr contains `"unknown option"` or `"unrecognized"`. -/
def flagRejected (stderr : String) : Bool :=
  strContains (strLower stderr) "unknown option" ||
    strContains (strLower stderr) "unrecognized"

/-- The per-flag loop of `test_compilation_flags`: invokes the target
once per flag with no timeout, clears `all_passed` when a rejection
marker appears in that invocation's stderr; an exception from
`subprocess.run` propagates (aborting the loop).  Second component: the
invocations issued. -/
def flagsLoop (env : Env) : List (List String) → Bool → Except PyExc Bool × List Inv
  | [], all_passed => (.ok all_passed, [])
  | flag :: rest, all_passed =>
    match subprocess_run env (binary_path :: flag) none with
    | .error e => (.error e, [⟨binary_path :: flag, none⟩])
    | .ok result =>
      let acc := if flagRejected result.stderr then false else all_passed
      let next := flagsLoop env rest acc
      (next.1, ⟨binary_path :: flag, none⟩ :: next.2)

/-- Test `test_compilation_flags`: the flag loop over the probed-flag list,
starting from `all_passed = True`. -/
def test_compilation_flags (env : Env) : Except PyExc Bool × List Inv :=
  flagsLoop env flags_to_test true

/-- The fixed relative path of the smoke test's temporary artifact. -/
def test_file : String := "test_simple_compile.to"

/-- The source text the smoke test writes to `test_file`. -/
def test_file_contents : String :=
  "\ndef main():\n    print(\"Hello from Tocin!\")\n    return 0\n"

/-- Test `test_simple_compilation`: writes the artifact, invokes the target on
it with a 10-second timeout, passes on any completion, fails on timeout
or any other exception (both caught inside the test), and in a `finally`
block removes the artifact if it exists.  Components: the test outcome
(never a propagated exception), the filesystem after the test, and the
invocation issued. -/
def test_simple_compilation (env : Env) (fs : FS) :
    Except PyExc Bool × FS × List Inv :=
  let fs1 := FS.write fs test_file test_file_contents
  let outcome : Except PyExc Bool :=
    match subprocess_run env [binary_path, test_file] (some 10) with
    | .ok _result => .ok true
    | .error .timeoutExpired => .ok false
    | .error .otherExc => .ok false
  let fs2 := if FS.path_exists fs1 test_file then FS.remove fs1 test_file else fs1
  (outcome, fs2, [⟨[binary_path, test_file], some 10⟩])

/-- A registered test action: given the environment and the current
filesystem, produce the outcome (or a propagated exception), the new
filesystem, and the invocations issued. -/
def TestAction : Type :=
  Env → FS → Except PyExc Bool × FS × List Inv

/-- The registry of `run_all_tests`: the five named tests in source
order. -/
def tests : List (String × TestAction) :=
  [("Binary Existence", fun env fs => (.ok (test_binary_exists env fs).1, fs, [])),
   ("Help Output", fun env fs =>
      let r := test_help_output env
      (r.1, fs, r.2)),
   ("Feature Advertisement", fun env fs =>
      let r := test_version_features env
      (r.1, fs, r.2)),
   ("Compilation Flags", fun env fs =>
      let r := test_compilation_flags env
      (r.1, fs, r.2)),
   ("Simple Compilation", fun env fs => test_simple_compilation env fs)]

/-- The orchestrator's isolation boundary: a test that returned `b` is
recorded as `b`; a test whose action raised is recorded as `False`. -/
def recordOutcome : Except PyExc Bool → Bool
  | .ok b => b
  | .error _ => false

/-- The orchestrator loop of `run_all_tests`: runs every registered test
in order, records one outcome per test through the isolation boundary,
threads the filesystem, and accumulates the issued invocations. -/
def runTestsLoop (env : Env) :
    List (String × TestAction) → FS → List (String × Bool) × FS × List Inv
  | [], fs => ([], fs, [])
  | (test_name, test_func) :: rest, fs =>
    let r := test_func env fs
    let rec_rest := runTestsLoop env rest r.2.1
    ((test_name, recordOutcome r.1) :: rec_rest.1, rec_rest.2.1, r.2.2 ++ rec_rest.2.2)

/-- Everything observable about one suite run: the insertion-ordered
results, the derived totals, the process exit status (`sys.exit(0 if
success else 1)`), the filesystem after the run, and the invocations
issued. -/
structure SuiteRun where
  results : List (String × Bool)
  passed : Nat
  total : Nat
  exit_status : Nat
  fsAfter : FS
  trace : List Inv

/-- Function `run_all_tests` followed by the `__main__` exit: runs the registry,
counts `passed` and `total`, and exits 0 iff `passed == total`. -/
def run_all_tests (env : Env) (fs : FS) : SuiteRun :=
  let r := runTestsLoop env tests fs
  let passed := (r.1.filter (fun p => p.2)).length
  let total := r.1.length
  { results := r.1
    passed := passed
    total := total
    exit_status := if passed = total then 0 else 1
    fsAfter := r.2.1
    trace := r.2.2 }


/-! Concrete environments and filesystems used to instantiate theorems. -/

/-- An environment in which every invocation completes with exit code 0
and empty output. -/
def envOk : Env :=
  ⟨fun _cmd _t => .completed ⟨0, "", ""⟩, fun _p => true⟩

/-- A filesystem holding only the target binary. -/
def fs0 : FS := fun p => if p = binary_path then some "" else none

/-! General lemmas about the embedded harness, shared by the claim
theorems below. -/

/-- The suite's results list, computed: one entry per registered test, in
registration order, each recorded through the isolation boundary. -/
theorem results_eq (env : Env) (fs : FS) :
    (run_all_tests env fs).results =
      [("Binary Existence", (test_binary_exists env fs).1),
       ("Help Output", recordOutcome (test_help_output env).1),
       ("Feature Advertisement", recordOutcome (test_version_features env).1),
       ("Compilation Flags", recordOutcome (test_compilation_flags env).1),
       ("Simple Compilation", recordOutcome (test_simple_compilation env fs).1)] := rfl

/-- The suite's invocation trace, computed: the help invocation (twice),
then the flag invocations, then the smoke invocation. -/
theorem trace_eq (env : Env) (fs : FS) :
    (run_all_tests env fs).trace =
      ⟨[binary_path, "--help"], none⟩ :: ⟨[binary_path, "--help"], none⟩ ::
        ((test_compilation_flags env).2 ++ [⟨[binary_path, test_file], some 10⟩]) := rfl

/-- The suite's final filesystem is the smoke test's final filesystem. -/
theorem fsAfter_eq (env : Env) (fs : FS) :
    (run_all_tests env fs).fsAfter = (test_simple_compilation env fs).2.1 := rfl

/-- Pointwise effect of the smoke test on the filesystem: the artifact
path ends up absent, every other path is untouched. -/
theorem smoke_fs (env : Env) (fs : FS) (p : String) :
    (test_simple_compilation env fs).2.1 p = if p = test_file then none else fs p := by
  show (if FS.path_exists (FS.write fs test_file test_file_contents) test_file then
      FS.remove (FS.write fs test_file test_file_contents) test_file
    else FS.write fs test_file test_file_contents) p = _
  rw [if_pos]
  · unfold FS.remove FS.write
    by_cases hp : p = test_file <;> simp [hp]
  · unfold FS.path_exists FS.write
    simp

/-- The smoke test's recorded outcome does not depend on the filesystem
it starts from. -/
theorem smoke_outcome_fs_irrelevant (env : Env) (fs1 fs2 : FS) :
    (test_simple_compilation env fs1).1 = (test_simple_compilation env fs2).1 := rfl

/-- The binary-existence test reads the filesystem only at the target
path. -/
theorem binary_exists_congr (env : Env) (fs1 fs2 : FS)
    (h : fs1 binary_path = fs2 binary_path) :
    test_binary_exists env fs1 = test_binary_exists env fs2 := by
  unfold test_binary_exists FS.path_exists
  rw [h]

/-- C1: every suite run records exactly one outcome per registered
TestCase, in registration order — `true` iff the action returned `true`,
`false` when it returned `false` or raised — and no TestCase is skipped,
so the executed count equals the registered count. -/
theorem suite_records_every_test (env : Env) (fs : FS) :
    (run_all_tests env fs).results.map Prod.fst = tests.map Prod.fst ∧
    (run_all_tests env fs).results =
      [("Binary Existence", (test_binary_exists env fs).1),
       ("Help Output", recordOutcome (test_help_output env).1),
       ("Feature Advertisement", recordOutcome (test_version_features env).1),
       ("Compilation Flags", recordOutcome (test_compilation_flags env).1),
       ("Simple Compilation", recordOutcome (test_simple_compilation env fs).1)] ∧
    (run_all_tests env fs).total = tests.length :=
  ⟨rfl, results_eq env fs, rfl⟩

/-- C2: the harness's process exit status is 0 iff every recorded
TestCase outcome is `true`, and nonzero otherwise. -/
theorem exit_status_zero_iff_all_passed (env : Env) (fs : FS) :
    ((run_all_tests env fs).exit_status = 0 ↔
      ((run_all_tests env fs).results.all fun p => p.2) = true) := by
  have h1 : (run_all_tests env fs).exit_status =
      if ((run_all_tests env fs).results.filter fun p => p.2).length =
          (run_all_tests env fs).results.length then 0 else 1 := rfl
  rw [h1]
  constructor
  · intro h
    by_cases hc : (((run_all_tests env fs).results.filter fun p => p.2).length =
        (run_all_tests env fs).results.length)
    · exact List.all_eq_true.mpr (List.filter_length_eq_length.mp hc)
    · rw [if_neg hc] at h
      exact absurd h one_ne_zero
  · intro h
    rw [if_pos (List.filter_length_eq_length.mpr (List.all_eq_true.mp h))]

/-- C6: the smoke-compilation check passes exactly when the bounded
invocation runs to completion — with any exit code — and fails exactly
when the invocation times out or raises a harness-level exception. -/
theorem smoke_pass_iff_completed (env : Env) (fs : FS) :
    (test_simple_compilation env fs).1 =
      .ok ((env.run [binary_path, test_file] (some 10)).isCompleted) := by
  cases henv : env.run [binary_path, test_file] (some 10) <;>
    simp [test_simple_compilation, subprocess_run, henv, RunOutcome.isCompleted]

/-- C7: on every exit path of the smoke-compilation check the temporary
source artifact is absent from the filesystem the check returns. -/
theorem smoke_cleanup_always (env : Env) (fs : FS) :
    FS.path_exists (test_simple_compilation env fs).2.1 test_file = false := by
  rw [FS.path_exists, smoke_fs]
  simp

/-- C10: the smoke-compilation check uses the single fixed relative path
`test_simple_compile.to`; a pre-existing file at that path is overwritten
and then deleted (the path is absent afterwards), and no other path is
touched. -/
theorem smoke_fixed_path_and_frame (env : Env) (fs : FS) :
    test_file = "test_simple_compile.to" ∧
    (test_simple_compilation env fs).2.2 = [⟨[binary_path, test_file], some 10⟩] ∧
    (test_simple_compilation env fs).2.1 test_file = none ∧
    (∀ p : String, p ≠ test_file → (test_simple_compilation env fs).2.1 p = fs p) := by
  refine ⟨rfl, rfl, ?_, ?_⟩
  · rw [smoke_fs]
    simp
  · intro p hp
    rw [smoke_fs]
    simp [hp]

/-- A filesystem with a stale file already at the smoke test's artifact
path, an unrelated file, and the binary. -/
def fsPre : FS := fun p =>
  if p = test_file then some "stale contents"
  else if p = "keep.txt" then some "kept"
  else if p = binary_path then some "" else none

/-- Witness for C10: with a stale file pre-existing at the artifact path
and an unrelated file `keep.txt`, after the smoke check the artifact path
is absent and the unrelated file is untouched. -/
theorem smoke_fixed_path_and_frame_witness :
    (test_simple_compilation envOk fsPre).2.1 test_file = none ∧
    (test_simple_compilation envOk fsPre).2.1 "keep.txt" = some "kept" ∧
    fsPre test_file = some "stale contents" := by
  refine ⟨(smoke_fixed_path_and_frame envOk fsPre).2.2.1, ?_, rfl⟩
  have h := (smoke_fixed_path_and_frame envOk fsPre).2.2.2 "keep.txt" (by decide)
  rw [h]
  rfl

/-- C9: the suite is deterministic in the target's observable behaviour:
a second consecutive run against the same environment (same exit codes,
stdout and stderr for every invocation), starting from the filesystem the
first run left behind, records identical per-test outcomes. -/
theorem suite_outcomes_deterministic (env : Env) (fs : FS) :
    (run_all_tests env (run_all_tests env fs).fsAfter).results =
      (run_all_tests env fs).results := by
  rw [results_eq, results_eq]
  have hb : test_binary_exists env (run_all_tests env fs).fsAfter =
      test_binary_exists env fs := by
    apply binary_exists_congr
    rw [fsAfter_eq, smoke_fs]
    simp [show binary_path ≠ test_file from by decide]
  rw [hb, smoke_outcome_fs_irrelevant env (run_all_tests env fs).fsAfter fs]

/-- Helper for the timeout analysis: every invocation issued by the flag
loop is issued with no timeout bound. -/
theorem flags_trace_timeout (env : Env) (flags : List (List String)) :
    ∀ (acc : Bool) (inv : Inv), inv ∈ (flagsLoop env flags acc).2 → inv.timeout = none := by
  induction flags with
  | nil =>
    intro acc inv h
    simp [flagsLoop] at h
  | cons flag rest ih =>
    intro acc inv h
    cases hr : subprocess_run env (binary_path :: flag) none with
    | error e =>
      simp [flagsLoop, hr] at h
      rw [h]
    | ok result =>
      simp [flagsLoop, hr] at h
      rcases h with h | h
      · rw [h]
      · exact ih _ inv h

/-- Counterexample to C3: in an environment where every invocation
completes immediately, the suite's trace contains an invocation (the help
invocation) issued with no timeout bound at all, so not every blocking
wait is timeout-bounded. -/
theorem not_every_wait_timeout_bounded :
    ¬ ∀ inv ∈ (run_all_tests envOk fs0).trace, inv.timeout.isSome = true := by
  intro h
  have hm : (⟨[binary_path, "--help"], none⟩ : Inv) ∈ (run_all_tests envOk fs0).trace := by
    rw [trace_eq]
    exact List.mem_cons_self _ _
  have h2 := h _ hm
  simp at h2

/-- C3 (amended): only the smoke-compilation invocation carries a timeout
bound (10 seconds); every other invocation the suite issues passes no
timeout bound to the process-running operation. -/
theorem only_smoke_invocation_bounded (env : Env) (fs : FS) :
    ∀ inv ∈ (run_all_tests env fs).trace,
      (inv.cmd = [binary_path, test_file] ∧ inv.timeout = some 10) ∨
        inv.timeout = none := by
  intro inv hm
  rw [trace_eq] at hm
  rcases List.mem_cons.mp hm with h | hm2
  · right
    rw [h]
  rcases List.mem_cons.mp hm2 with h | hm3
  · right
    rw [h]
  rcases List.mem_append.mp hm3 with h4 | h5
  · right
    exact flags_trace_timeout env flags_to_test true inv h4
  · left
    rw [List.mem_singleton.mp h5]
    exact ⟨rfl, rfl⟩

/-- Witness for the amended C3, at the help invocation of a concrete
run: it is issued with no timeout bound. -/
theorem only_smoke_invocation_bounded_witness :
    ((⟨[binary_path, "--help"], none⟩ : Inv).cmd = [binary_path, test_file] ∧
        (⟨[binary_path, "--help"], none⟩ : Inv).timeout = some 10) ∨
      (⟨[binary_path, "--help"], none⟩ : Inv).timeout = none := by
  apply only_smoke_invocation_bounded envOk fs0
  rw [trace_eq]
  exact List.mem_cons_self _ _

/-- An environment in which no invocation can start at all, as when the
target binary is missing (`FileNotFoundError`). -/
def envMissing : Env :=
  ⟨fun _cmd _t => .failedToStart, fun _p => false⟩

/-- A filesystem with no files at all (in particular no target binary). -/
def fsNoBinary : FS := fun _p => none

/-- C8: with the target absent, the binary-existence check fails with the
descriptive not-found reason while issuing no invocation, and every
remaining TestCase still runs, attempts its own invocation of the missing
binary, and records its own failing outcome. -/
theorem missing_binary_isolation (env : Env) (fs : FS)
    (h1 : fs binary_path = none)
    (h2 : ∀ (cmd : List String) (t : Option Nat), env.run cmd t = .failedToStart) :
    test_binary_exists env fs =
      (false, "FAILED: Binary not found at " ++ binary_path) ∧
    (run_all_tests env fs).results =
      [("Binary Existence", false), ("Help Output", false),
       ("Feature Advertisement", false), ("Compilation Flags", false),
       ("Simple Compilation", false)] ∧
    (run_all_tests env fs).trace =
      [⟨[binary_path, "--help"], none⟩, ⟨[binary_path, "--help"], none⟩,
       ⟨[binary_path, "--dump-ir"], none⟩, ⟨[binary_path, test_file], some 10⟩] := by
  refine ⟨?_, ?_, ?_⟩
  · simp [test_binary_exists, FS.path_exists, h1]
  · rw [results_eq]
    simp [test_binary_exists, FS.path_exists, h1, test_help_output, run_command,
      test_version_features, test_compilation_flags, flags_to_test, flagsLoop,
      test_simple_compilation, subprocess_run, h2, recordOutcome]
  · rw [trace_eq]
    simp [test_compilation_flags, flags_to_test, flagsLoop, subprocess_run, h2]

/-- Witness for C8 at a concrete empty filesystem and an environment
whose every invocation fails to start. -/
theorem missing_binary_isolation_witness :
    test_binary_exists envMissing fsNoBinary =
      (false, "FAILED: Binary not found at " ++ binary_path) ∧
    (run_all_tests envMissing fsNoBinary).results =
      [("Binary Existence", false), ("Help Output", false),
       ("Feature Advertisement", false), ("Compilation Flags", false),
       ("Simple Compilation", false)] ∧
    (run_all_tests envMissing fsNoBinary).trace =
      [⟨[binary_path, "--help"], none⟩, ⟨[binary_path, "--help"], none⟩,
       ⟨[binary_path, "--dump-ir"], none⟩, ⟨[binary_path, test_file], some 10⟩] :=
  missing_binary_isolation envMissing fsNoBinary rfl (fun _cmd _t => rfl)

/-- The stderr the target produced for a given flag probe (empty when the
invocation did not complete). -/
def stderrOf (env : Env) (flag : List String) : String :=
  match env.run (binary_path :: flag) none with
  | .completed r => r.stderr
  | .timedOut => ""
  | .failedToStart => ""

/-- Helper for C4: when every probed invocation completes, the flag loop
returns the conjunction of its accumulator with per-flag recognition,
where a flag is recognized iff no rejection marker occurs in its
stderr. -/
theorem flagsLoop_all_recognized (env : Env) (flags : List (List String)) :
    ∀ acc : Bool,
      (∀ flag ∈ flags, (env.run (binary_path :: flag) none).isCompleted = true) →
      (flagsLoop env flags acc).1 =
        .ok (acc && flags.all fun flag => !flagRejected (stderrOf env flag)) := by
  induction flags with
  | nil =>
    intro acc _h
    simp [flagsLoop]
  | cons flag rest ih =>
    intro acc h
    have hflag := h flag (List.mem_cons_self _ _)
    have hrest : ∀ f ∈ rest, (env.run (binary_path :: f) none).isCompleted = true :=
      fun f hf => h f (List.mem_cons_of_mem _ hf)
    cases hr : env.run (binary_path :: flag) none with
    | completed r =>
      have hs : stderrOf env flag = r.stderr := by
        simp [stderrOf, hr]
      simp only [flagsLoop, subprocess_run, hr, ih _ hrest, hs, List.all_cons]
      cases hrej : flagRejected r.stderr <;> cases acc <;> simp [hrej]
    | timedOut =>
      rw [hr] at hflag
      simp [RunOutcome.isCompleted] at hflag
    | failedToStart =>
      rw [hr] at hflag
      simp [RunOutcome.isCompleted] at hflag

/-- C4: when every probed invocation completes, the aggregate flag check
reports true iff every probed flag is judged recognized, where a flag is
judged recognized iff neither `"unknown option"` nor `"unrecognized"`
occurs case-insensitively in that invocation's captured stderr — the
judgement reads only the stderr, never the exit code. -/
theorem flag_recognition_by_stderr_markers (env : Env)
    (h : ∀ flag ∈ flags_to_test, (env.run (binary_path :: flag) none).isCompleted = true) :
    (test_compilation_flags env).1 =
      .ok (flags_to_test.all fun flag => !flagRejected (stderrOf env flag)) := by
  have hmain := flagsLoop_all_recognized env flags_to_test true h
  simpa [test_compilation_flags] using hmain

/-- An environment whose every invocation completes with exit code 0 but
with the mixed-case rejection text `"Unknown Option"` on stderr. -/
def envRej : Env :=
  ⟨fun _cmd _t => .completed ⟨0, "", "Unknown Option: flag not supported"⟩, fun _p => true⟩

/-- Witness for C4: with mixed-case `"Unknown Option"` on every stderr,
each flag is judged unrecognized and the aggregate flag check reports
false, even though every invocation exited 0. -/
theorem flag_recognition_by_stderr_markers_witness :
    (test_compilation_flags envRej).1 = .ok false ∧
    flagRejected "Unknown Option: flag not supported" = true := by
  have hagg : (flags_to_test.all fun flag => !flagRejected (stderrOf envRej flag)) = false := by
    decide
  refine ⟨?_, by decide⟩
  rw [flag_recognition_by_stderr_markers envRej (fun _flag _h => rfl), hagg]

/-- Helper for C5: the `all_found` fold with an arbitrary starting
accumulator. -/
theorem featuresFound_aux (s : String) (l : List String) :
    ∀ acc : Bool,
      l.foldl (fun all_found feature =>
          if strContains s feature then all_found else false) acc =
        (acc && l.all fun g => strContains s g) := by
  induction l with
  | nil =>
    intro acc
    simp
  | cons x xs ih =>
    intro acc
    rw [List.foldl_cons, List.all_cons, ih]
    cases hx : strContains s x <;> cases acc <;> simp [hx]

/-- The feature scan succeeds iff every required feature string occurs in
the given stdout. -/
theorem featuresFound_eq (s : String) :
    featuresFound s = (required_features.all fun g => strContains s g) := by
  unfold featuresFound
  rw [featuresFound_aux]
  simp

/-- Hypothetical variant of an environment in which the help invocation's
captured stdout is replaced by `s` and nothing else changes; used to
state the substring-removal sensitivity of the feature check. -/
def Env.withHelpStdout (env : Env) (s : String) : Env :=
  { env with
    run := fun cmd t =>
      if cmd = [binary_path, "--help"] ∧ t = none then
        match env.run cmd t with
        | .completed r => .completed ⟨r.returncode, s, r.stderr⟩
        | o => o
      else env.run cmd t }

/-- Computation rule for `Env.withHelpStdout`. -/
theorem withHelpStdout_run (env : Env) (s : String) (cmd : List String) (t : Option Nat) :
    (env.withHelpStdout s).run cmd t =
      if cmd = [binary_path, "--help"] ∧ t = none then
        match env.run cmd t with
        | .completed r => .completed ⟨r.returncode, s, r.stderr⟩
        | o => o
      else env.run cmd t := rfl

/-- No probed flag invocation is the help invocation. -/
theorem flags_cmd_ne_help :
    ∀ flag ∈ flags_to_test, binary_path :: flag ≠ [binary_path, "--help"] := by
  decide

/-- The flag loop depends on the environment only through the probed
invocations. -/
theorem flagsLoop_congr (env1 env2 : Env) (flags : List (List String))
    (h : ∀ flag ∈ flags,
        env1.run (binary_path :: flag) none = env2.run (binary_path :: flag) none) :
    ∀ acc, flagsLoop env1 flags acc = flagsLoop env2 flags acc := by
  induction flags with
  | nil =>
    intro acc
    rfl
  | cons flag rest ih =>
    intro acc
    have hflag := h flag (List.mem_cons_self _ _)
    have hrest := fun f hf => h f (List.mem_cons_of_mem _ hf)
    simp only [flagsLoop, subprocess_run, hflag, ih hrest]

/-- C5: given a help invocation that completes with exit code 0 and a
stdout containing all eleven required feature strings, the help check and
the feature check both report true; and replacing that stdout with one in
which exactly one required string is missing flips the feature check to
false while leaving the help, binary-existence, flag and smoke checks
unchanged. -/
theorem help_features_and_single_removal
    (env : Env) (fs : FS) (r : CompletedProcess) (f s2 : String)
    (hrun : env.run [binary_path, "--help"] none = .completed r)
    (hall : ∀ g ∈ required_features, strContains r.stdout g = true)
    (hrc : r.returncode = 0)
    (hf : f ∈ required_features)
    (hmiss : strContains s2 f = false)
    (_hrest : ∀ g ∈ required_features, g ≠ f → strContains s2 g = true) :
    (test_help_output env).1 = .ok true ∧
    (test_version_features env).1 = .ok true ∧
    (test_version_features (env.withHelpStdout s2)).1 = .ok false ∧
    (test_help_output (env.withHelpStdout s2)).1 = (test_help_output env).1 ∧
    test_binary_exists (env.withHelpStdout s2) fs = test_binary_exists env fs ∧
    (test_compilation_flags (env.withHelpStdout s2)).1 = (test_compilation_flags env).1 ∧
    (test_simple_compilation (env.withHelpStdout s2) fs).1 =
      (test_simple_compilation env fs).1 := by
  have hrun2 : (env.withHelpStdout s2).run [binary_path, "--help"] none =
      .completed ⟨r.returncode, s2, r.stderr⟩ := by
    rw [withHelpStdout_run]
    simp [hrun]
  have hfoundAll : featuresFound r.stdout = true := by
    rw [featuresFound_eq]
    exact List.all_eq_true.mpr hall
  have hff : featuresFound s2 = false := by
    rw [featuresFound_eq]
    refine List.all_eq_false.mpr ⟨f, hf, ?_⟩
    simp [hmiss]
  have hagree : ∀ flag ∈ flags_to_test,
      (env.withHelpStdout s2).run (binary_path :: flag) none =
        env.run (binary_path :: flag) none := by
    intro flag hfl
    rw [withHelpStdout_run]
    rw [if_neg (fun hand => flags_cmd_ne_help flag hfl hand.1)]
  refine ⟨?_, ?_, ?_, ?_, rfl, ?_, ?_⟩
  · simp [test_help_output, run_command, subprocess_run, hrun, hrc]
  · simp [test_version_features, subprocess_run, hrun, hfoundAll]
  · simp [test_version_features, subprocess_run, hrun2, hff]
  · simp [test_help_output, run_command, subprocess_run, hrun, hrun2]
  · unfold test_compilation_flags
    rw [flagsLoop_congr (env.withHelpStdout s2) env flags_to_test hagree]
  · have hs : (env.withHelpStdout s2).run [binary_path, test_file] (some 10) =
        env.run [binary_path, test_file] (some 10) := by
      rw [withHelpStdout_run]
      rw [if_neg (by simp)]
    simp [test_simple_compilation, subprocess_run, hs]

/-- A help output containing all eleven required feature strings. -/
def helpAll : String :=
  "Option/Result types\nTraits\nOwnership\nNull safety\nConcurrency\nasync/await\nMacro system\nFFI support\nJavaScript\nPython\nC++\n"

/-- The same help output with only the `"Traits"` line removed. -/
def helpNoTraits : String :=
  "Option/Result types\nOwnership\nNull safety\nConcurrency\nasync/await\nMacro system\nFFI support\nJavaScript\nPython\nC++\n"

/-- An environment whose every invocation completes with exit code 0 and
the full feature list on stdout. -/
def envHelp : Env :=
  ⟨fun _cmd _t => .completed ⟨0, helpAll, ""⟩, fun _p => true⟩

/-- Witness for C5 at a concrete environment: with the full help output
the help and feature checks pass; with `"Traits"` removed the feature
check fails and the other checks are unchanged. -/
theorem help_features_and_single_removal_witness :
    (test_help_output envHelp).1 = .ok true ∧
    (test_version_features envHelp).1 = .ok true ∧
    (test_version_features (envHelp.withHelpStdout helpNoTraits)).1 = .ok false ∧
    (test_help_output (envHelp.withHelpStdout helpNoTraits)).1 = (test_help_output envHelp).1 ∧
    test_binary_exists (envHelp.withHelpStdout helpNoTraits) fs0 = test_binary_exists envHelp fs0 ∧
    (test_compilation_flags (envHelp.withHelpStdout helpNoTraits)).1 =
      (test_compilation_flags envHelp).1 ∧
    (test_simple_compilation (envHelp.withHelpStdout helpNoTraits) fs0).1 =
      (test_simple_compilation envHelp fs0).1 :=
  help_features_and_single_removal envHelp fs0 ⟨0, helpAll, ""⟩ "Traits" helpNoTraits
    rfl (by decide) rfl (by decide) (by decide) (by decide)

end Tocin
